import Mathlib

/-!
Verification of the arcgis-gp-export-tools repository (arcgiscsv module).

Shallow embedding of `src/arcgiscsv/__init__.py`:
  - `get_fields_from_table`  (field listing helper)
  - `write_to_csv`           (table-to-CSV helper)
  - `_prepare_for_csv`       (value normalizer; here `prepare_for_csv`)
  - `dump_fc`                (feature-class dump routine)

Python runtime values that can appear in a cursor row are modelled by the
inductive type `Value`; the external arcpy collaborator (Describe / Exists /
SearchCursor) is modelled by explicit data (`FcSource`, `TableView`) that
records what the collaborator would report; file-system effects of `dump_fc`
are tracked in an explicit `RunState` threaded through a step-by-step
interpreter that mirrors the Python control flow, including its
`try`/`finally` block.
-/

namespace ArcGisCsv

/-- A compiled regular-expression object (`re.Pattern`).  Its one real method
used by this code base is `match`, which tests the pattern against the start
of the string and is used purely as a boolean test here; we model that method
extensionally as the predicate `match0`.  (CPython's `re.Pattern` exposes
`match`, `fullmatch`, `search`, ... — there is no method named `matches`.) -/
structure Pattern where
  match0 : String → Bool

/-- A field descriptor as reported by `arcpy.Describe(...)`: a name plus the
arcpy type tag (`"OID"`, `"Geometry"`, `"String"`, `"Date"`, ...). -/
structure Field where
  name : String
  type : String
deriving Repr, DecidableEq

/-- Python exceptions that the modelled code can raise. -/
inductive PyError
  /-- `AttributeError` from looking up a nonexistent attribute. -/
  | attributeError (attr : String)
  /-- `FileNotFoundError` raised by `dump_fc` when `arcpy.Exists` is false. -/
  | fileNotFoundError
  /-- `NameError` (or its subclass `UnboundLocalError`) from reading an
  unbound local variable. -/
  | nameError (n : String)
  /-- `OSError` from `open()` failing on the destination path. -/
  | osError
  /-- an arcpy error raised while opening or iterating a `SearchCursor`. -/
  | cursorError
deriving Repr, DecidableEq

/-- A calendar date (`datetime.date`). -/
structure Date where
  year : Nat
  month : Nat
  day : Nat
deriving Repr, DecidableEq

/-- A time-of-day component (the part `datetime.datetime` carries beyond its
`datetime.date` part). -/
structure Time where
  hour : Nat
  minute : Nat
  second : Nat
  microsecond : Nat
deriving Repr, DecidableEq

/-- Runtime values that can appear in a cursor row / CSV cell.  The
constructors are keyed to the concrete Python runtime type, because
`_prepare_for_csv` dispatches with `isinstance`: `bytes` and `bytearray` are
distinct types (neither is an instance of the other), and `datetime.datetime`
is a proper subclass of `datetime.date` (a plain `date` is *not* an instance
of `datetime.datetime`). -/
inductive Value
  /-- a Python `bytes` object. -/
  | vbytes (b : List Nat)
  /-- a Python `bytearray` object (what arcpy yields for BLOB / `SHAPE@WKB`). -/
  | vbytearray (b : List Nat)
  /-- a `datetime.datetime`: a date plus a time-of-day. -/
  | vdatetime (d : Date) (t : Time)
  /-- a plain `datetime.date`. -/
  | vdate (d : Date)
  /-- a `str`. -/
  | vstr (s : String)
  /-- an `int`. -/
  | vint (n : Int)
  /-- Python `None`. -/
  | vnone
deriving Repr, DecidableEq

/-- The base64 alphabet, indexed 0..63 (RFC 4648 / Python `base64.b64encode`). -/
def b64_char (n : Nat) : Char :=
  "ABCDEFGHIJKLMNOPQRSTUVWXYZabcdefghijklmnopqrstuvwxyz0123456789+/".toList.getD n '='

/-- Standard base64 encoding of a byte sequence, as the text produced by
`base64.b64encode(item).decode(encoding='utf-8')`: each 3-byte group becomes
4 alphabet characters; a trailing 1- or 2-byte group is padded with `=`. -/
def b64encode : List Nat → String
  | [] => ""
  | [a] =>
    String.mk [b64_char (a / 4 % 64), b64_char (a % 4 * 16), '=', '=']
  | [a, b] =>
    String.mk [b64_char (a / 4 % 64), b64_char (a % 4 * 16 + b / 16 % 16),
      b64_char (b % 16 * 4), '=']
  | a :: b :: c :: rest =>
    String.mk [b64_char (a / 4 % 64), b64_char (a % 4 * 16 + b / 16 % 16),
      b64_char (b % 16 * 4 + c / 64 % 4), b64_char (c % 64)] ++ b64encode rest

/-- `_prepare_for_csv(item)`: converts a data item to a format that can be
written to CSV.  `isinstance(item, bytearray)` → base64 text;
`isinstance(item, datetime.datetime)` → `item.date()`; everything else is
returned unchanged. -/
def prepare_for_csv : Value → Value
  | .vbytearray b => .vstr (b64encode b)
  | .vdatetime d _ => .vdate d
  | v => v

/-- Whether a value is a `bytearray` instance. -/
def Value.isBytearray : Value → Bool
  | .vbytearray _ => true
  | _ => false

/-- Whether a value is a `datetime.datetime` instance. -/
def Value.isDatetime : Value → Bool
  | .vdatetime _ _ => true
  | _ => false

/-- One step of the loop in `get_fields_from_table`: evaluates the condition
`omit_fields_re is None or not omit_fields_re.matches(field.name)`.  Python
evaluates the disjunction left to right; when `omit_fields_re` is not `None`
the second operand is evaluated, and the attribute lookup
`omit_fields_re.matches` raises `AttributeError` because `re.Pattern` has no
attribute named `matches` (its anchored-match method is called `match`). -/
def gfft_include (omit_fields_re : Option Pattern) (_f : Field) : Except PyError Bool :=
  match omit_fields_re with
  | none => .ok true
  | some _ => .error (.attributeError "matches")

/-- The `for field in fields` loop of `get_fields_from_table`, appending
`field.name` whenever the condition holds. -/
def gfft_loop (omit_fields_re : Option Pattern) : List Field → Except PyError (List String)
  | [] => .ok []
  | f :: rest => do
    let inc ← gfft_include omit_fields_re f
    let tail ← gfft_loop omit_fields_re rest
    pure (if inc then f.name :: tail else tail)

/-- `get_fields_from_table(table, omit_fields_re)`.  The table argument is
modelled by the field list its `arcpy.Describe(...)` schema reports (the
claim only concerns describable tables); a string `omit_fields_re` argument
is compiled by the code into a case-insensitive `re.Pattern` first, so the
argument is modelled as `Option Pattern`. -/
def get_fields_from_table (fields : List Field) (omit_fields_re : Option Pattern) :
    Except PyError (List String) :=
  gfft_loop omit_fields_re fields

/-- A table view as seen by `write_to_csv`: the `arcpy.da.SearchCursor`
opened on it reports a field-name tuple `cursor.fields` and yields `rows` in
order.  Only successful runs are modelled here (claim C4 is about successful
export runs). -/
structure TableView where
  cursor_fields : List String
  rows : List (List Value)

/-- The `for row in cursor` loop of `write_to_csv`: writes each row and
increments `row_count`.  Returns the final count and the data rows written,
in order. -/
def wtc_loop : List (List Value) → Nat × List (List Value)
  | [] => (0, [])
  | r :: rest =>
    let p := wtc_loop rest
    (p.1 + 1, r :: p.2)

/-- `write_to_csv(table_view, output_file, ...)` on a successful run: writes
the header row `cursor.fields`, then every cursor row (verbatim – this helper
does not apply `_prepare_for_csv`), and returns `row_count`.  Result:
`(returned row count, full file contents as a list of written rows)`. -/
def write_to_csv (tv : TableView) : Nat × List (List Value) :=
  let p := wtc_loop tv.rows
  (p.1, (tv.cursor_fields.map Value.vstr) :: p.2)

/-- Evaluates `skip_re and skip_re.match(field.name)` as a boolean: false
when `skip_re` is `None`, otherwise the anchored match test. -/
def skipMatches (skip_re : Option Pattern) (n : String) : Bool :=
  match skip_re with
  | none => false
  | some p => p.match0 n

/-- The `for field in fc_desc.fields` loop of `dump_fc`, returning the
accumulated positional `field_list` together with the final `has_geometry`
flag.  A field is skipped (`continue`) when
`(skip_re and skip_re.match(field.name)) or (omit_oid and field.type == "OID")`;
otherwise a `"Geometry"`-typed field only sets `has_geometry`, and any other
field's name is appended to the list. -/
def dump_fc_loop (omit_oid : Bool) (skip_re : Option Pattern) :
    List Field → List String × Bool
  | [] => ([], false)
  | f :: rest =>
    let r := dump_fc_loop omit_oid skip_re rest
    if skipMatches skip_re f.name || (omit_oid && f.type == "OID") then r
    else if f.type == "Geometry" then (r.1, true)
    else (f.name :: r.1, r.2)

/-- The export field list `dump_fc` builds: the positional list from the
field loop, with `"SHAPE@WKB"` appended when `has_geometry` was set. -/
def resolved_field_list (fields : List Field) (omit_oid : Bool)
    (skip_re : Option Pattern) : List String :=
  let r := dump_fc_loop omit_oid skip_re fields
  if r.2 then r.1 ++ ["SHAPE@WKB"] else r.1

/-- The feature class and its surrounding world as `dump_fc` observes them:
`arcpy.Exists`, the described schema, whether `arcpy.da.SearchCursor` opens
successfully, the rows it yields before any failure, and whether iteration
raises after those rows. -/
structure FcSource where
  fcExists : Bool
  fields : List Field
  cursor_open_ok : Bool
  rows : List (List Value)
  cursor_raises : Bool

/-- Truthiness of the `out_file` argument (`if out_file:`): `None` and the
empty string are falsy. -/
def truthy : Option String → Bool
  | none => false
  | some s => !(s == "")

/-- Observable effects of one `dump_fc` call: the rows written to the
destination (header first, in write order), whether the destination handle
was ever opened, and counts of `flush`/`close` calls on it, whether a
`SearchCursor` was opened, and how many source rows were read. -/
structure RunState where
  written : List (List Value)
  opened : Bool
  flushes : Nat
  closes : Nat
  cursorOpened : Bool
  rowsRead : Nat
deriving Repr, DecidableEq

/-- The state before `dump_fc` touches anything. -/
def initState : RunState :=
  { written := [], opened := false, flushes := 0, closes := 0,
    cursorOpened := false, rowsRead := 0 }

/-- The `finally` clause of `dump_fc`: `if file_obj: file_obj.flush();
file_obj.close()`.  `file_obj` is truthy exactly when the destination handle
was opened. -/
def runFinally (st : RunState) : RunState :=
  if st.opened then { st with flushes := st.flushes + 1, closes := st.closes + 1 }
  else st

/-- `dump_fc(fc_path, out_file, omit_oid, skip_re)`.  Mirrors the Python
control flow: the existence check, the field-list loop, then the
`try`/`finally` block in which the destination is opened (only when
`out_file` is truthy; raising `OSError` when the path is unwritable),
`csv_writer` is bound only when `file_obj` is truthy (so a falsy `out_file`
leaves it unbound and `csv_writer.writerow(field_list)` raises
`UnboundLocalError`, a subclass of `NameError`), the header row is written,
the cursor is opened and iterated with each row passed through
`map(_prepare_for_csv, row)`, and the `finally` clause flushes and closes the
handle when it was opened.  Returns the final state and the outcome. -/
def dump_fc (src : FcSource) (dest_writable : Bool) (out_file : Option String)
    (omit_oid : Bool) (skip_re : Option Pattern) : RunState × Except PyError Unit :=
  if !src.fcExists then
    (initState, .error .fileNotFoundError)
  else
    let field_list := resolved_field_list src.fields omit_oid skip_re
    -- try block starts; file_obj = None
    if truthy out_file && !dest_writable then
      -- open() raised; file_obj is still None, so finally closes nothing
      (runFinally initState, .error .osError)
    else if !truthy out_file then
      -- open() skipped; csv_writer never bound; writerow raises NameError
      (runFinally initState, .error (.nameError "csv_writer"))
    else
      -- destination opened, csv_writer bound, header row written
      let st0 : RunState :=
        { initState with opened := true, written := [field_list.map Value.vstr] }
      if !src.cursor_open_ok then
        (runFinally st0, .error .cursorError)
      else
        let st1 := { st0 with cursorOpened := true }
        let st2 :=
          { st1 with
            written := st1.written ++ src.rows.map (fun r => r.map prepare_for_csv),
            rowsRead := src.rows.length }
        if src.cursor_raises then
          (runFinally st2, .error .cursorError)
        else
          (runFinally st2, .ok ())

/-- The condition under which a field ends up in the positional part of the
export field list: not skipped by `skip_re`/`omit_oid` and not geometry. -/
def keptInPositional (omit_oid : Bool) (skip_re : Option Pattern) (f : Field) : Bool :=
  !(skipMatches skip_re f.name || (omit_oid && f.type == "OID")) && !(f.type == "Geometry")

/-- The condition under which a field sets the `has_geometry` flag: not
skipped by `skip_re`/`omit_oid`, and of type `"Geometry"`. -/
def geomFlagged (omit_oid : Bool) (skip_re : Option Pattern) (f : Field) : Bool :=
  !(skipMatches skip_re f.name || (omit_oid && f.type == "OID")) && (f.type == "Geometry")

/-- The concrete skip pattern used in the counterexample for claim C2: a
pattern whose anchored match accepts exactly the name `"Shape"` (for example
`re.compile("Shape$")`). -/
def cexPattern : Pattern := ⟨fun n => n == "Shape"⟩

/-- A concrete source whose cursor raises after yielding one row. -/
def srcA : FcSource := ⟨true, [Field.mk "NAME" "String"], true, [[Value.vint 1]], true⟩

/-- A concrete well-behaved source with a single OID field. -/
def srcB : FcSource := ⟨true, [Field.mk "ID" "OID"], true, [[Value.vint 1]], false⟩

/-- A concrete well-behaved source matching spec Scenario 1 (`OID`, `NAME`,
geometry), whose one row is aligned with the resolved field list
`["NAME", "SHAPE@WKB"]`. -/
def srcC : FcSource :=
  ⟨true, [Field.mk "OBJECTID" "OID", Field.mk "NAME" "String", Field.mk "Shape" "Geometry"],
    true, [[Value.vstr "a", Value.vbytearray [1, 2]]], false⟩

/-- A concrete well-behaved source with a single string field. -/
def srcD : FcSource := ⟨true, [Field.mk "NAME" "String"], true, [[Value.vint 1]], false⟩

/-- A concrete two-column table view with one row. -/
def tvA : TableView := ⟨["ID", "VALUE"], [[Value.vint 1, Value.vstr "v"]]⟩

lemma dump_fc_loop_fst (o : Bool) (s : Option Pattern) (fs : List Field) :
    (dump_fc_loop o s fs).1 = (fs.filter (keptInPositional o s)).map Field.name := by
  induction fs with
  | nil => rfl
  | cons f rest ih =>
    cases h1 : skipMatches s f.name || (o && f.type == "OID") with
    | true => simp [dump_fc_loop, keptInPositional, h1, ih]
    | false =>
      cases h2 : (f.type == "Geometry") with
      | true => simp [dump_fc_loop, keptInPositional, h1, h2, ih]
      | false => simp [dump_fc_loop, keptInPositional, h1, h2, ih]

lemma dump_fc_loop_snd (o : Bool) (s : Option Pattern) (fs : List Field) :
    (dump_fc_loop o s fs).2 = fs.any (geomFlagged o s) := by
  induction fs with
  | nil => rfl
  | cons f rest ih =>
    cases h1 : skipMatches s f.name || (o && f.type == "OID") with
    | true => simp [dump_fc_loop, geomFlagged, h1, ih]
    | false =>
      cases h2 : (f.type == "Geometry") with
      | true => simp [dump_fc_loop, geomFlagged, h1, h2, ih]
      | false => simp [dump_fc_loop, geomFlagged, h1, h2, ih]

lemma wtc_loop_eq (rows : List (List Value)) : wtc_loop rows = (rows.length, rows) := by
  induction rows with
  | nil => rfl
  | cons r rest ih => simp [wtc_loop, ih]

/-- C1: the claim says `get_fields_from_table(table, pattern)` with a
non-None pattern returns the schema field names with the matching ones
removed and never fails on a describable table.  The code instead evaluates
`omit_fields_re.matches(field.name)` on the first field, and `re.Pattern`
has no attribute `matches` (the method is `match`), so the call raises
`AttributeError` for every describable table with at least one field — here
evaluated at a one-field table and a pattern that matches nothing. -/
theorem get_fields_from_table_attribute_error :
    get_fields_from_table [Field.mk "NAME" "String"] (some (Pattern.mk (fun _ => false))) =
      .error (.attributeError "matches") := rfl

/-- C2 counterexample: a schema containing a geometry-typed field for which
the resolved export field list does not contain `"SHAPE@WKB"`: the geometry
field's name matches `skip_re`, so the loop `continue`s before the geometry
branch and `has_geometry` is never set.  This falsifies the claimed
"contains SHAPE@WKB if and only if the schema contains a geometry-typed
field". -/
theorem resolved_field_list_geometry_iff_cex :
    (∃ f ∈ [Field.mk "Shape" "Geometry"], f.type = "Geometry") ∧
    "SHAPE@WKB" ∉ resolved_field_list [Field.mk "Shape" "Geometry"] true (some cexPattern) := by
  refine ⟨⟨Field.mk "Shape" "Geometry", by simp, rfl⟩, ?_⟩
  intro h
  have he : resolved_field_list [Field.mk "Shape" "Geometry"] true (some cexPattern) = [] := rfl
  rw [he] at h
  simp at h

/-- C2 (amended): the export field list resolved by `dump_fc` is exactly the
names of the fields that are neither skipped (by `skip_re` or `omit_oid`)
nor geometry-typed, in declared order, followed by `"SHAPE@WKB"` appended as
the last element if and only if the schema contains a geometry-typed field
that is not skipped by `skip_re`/`omit_oid`; in particular every
geometry-typed field is excluded from the positional list. -/
theorem resolved_field_list_spec (fields : List Field) (omit_oid : Bool)
    (skip_re : Option Pattern) :
    (resolved_field_list fields omit_oid skip_re =
      (fields.filter (keptInPositional omit_oid skip_re)).map Field.name ++
        (if fields.any (geomFlagged omit_oid skip_re) then ["SHAPE@WKB"] else [])) ∧
    (fields.filter (keptInPositional omit_oid skip_re)).all
      (fun f => !(f.type == "Geometry")) = true := by
  constructor
  · have h1 := dump_fc_loop_fst omit_oid skip_re fields
    have h2 := dump_fc_loop_snd omit_oid skip_re fields
    by_cases h : fields.any (geomFlagged omit_oid skip_re) = true <;>
      simp [resolved_field_list, h1, h2, h]
  · rw [List.all_eq_true]
    intro f hf
    have hk := List.of_mem_filter hf
    simp only [keptInPositional, Bool.and_eq_true] at hk
    exact hk.2

/-- C3: once `dump_fc` has opened the destination file, every exit path of
the `try`/`finally` block — normal completion, a cursor-open error, or a
mid-iteration cursor error — closes the handle exactly once; and a
mid-iteration cursor error propagates to the caller with the header and the
rows read so far (each passed through `_prepare_for_csv`) remaining in the
file. -/
theorem dump_fc_closes_destination_once (src : FcSource) (out_file : Option String)
    (omit_oid : Bool) (skip_re : Option Pattern)
    (hex : src.fcExists = true) (hout : truthy out_file = true) :
    ((dump_fc src true out_file omit_oid skip_re).1.opened = true ∧
      (dump_fc src true out_file omit_oid skip_re).1.closes = 1) ∧
    (src.cursor_open_ok = true → src.cursor_raises = true →
      (dump_fc src true out_file omit_oid skip_re).2 = .error .cursorError ∧
      (dump_fc src true out_file omit_oid skip_re).1.written =
        (resolved_field_list src.fields omit_oid skip_re).map Value.vstr ::
          src.rows.map (fun r => r.map prepare_for_csv)) := by
  cases hco : src.cursor_open_ok <;> cases hcr : src.cursor_raises <;>
    simp [dump_fc, hex, hout, hco, hcr, runFinally, initState]

/-- C3 witness: the theorem applied to a concrete source whose cursor raises
after yielding one row. -/
theorem dump_fc_closes_destination_once_witness :
    (dump_fc srcA true (some "out.csv") true none).1.closes = 1 ∧
    (dump_fc srcA true (some "out.csv") true none).2 = .error .cursorError :=
  ⟨(dump_fc_closes_destination_once srcA (some "out.csv") true none rfl rfl).1.2,
    ((dump_fc_closes_destination_once srcA (some "out.csv") true none rfl rfl).2 rfl rfl).1⟩

/-- C4: on a successful run, `write_to_csv` returns the number of data rows
written to the destination, i.e. the length of the written file contents
minus the single header row that is written first. -/
theorem write_to_csv_returns_row_count (tv : TableView) :
    (write_to_csv tv).1 = (write_to_csv tv).2.tail.length ∧
    (write_to_csv tv).2.length = (write_to_csv tv).1 + 1 ∧
    (write_to_csv tv).2.head? = some (tv.cursor_fields.map Value.vstr) := by
  simp [write_to_csv, wtc_loop_eq]

/-- C5: when the destination cannot be opened for writing (and `out_file` is
truthy so `open` is attempted), `dump_fc` propagates the `open` error; no
cursor is opened, no source row is read, and nothing is written. -/
theorem dump_fc_destination_error_fail_fast (src : FcSource) (out_file : Option String)
    (omit_oid : Bool) (skip_re : Option Pattern)
    (hex : src.fcExists = true) (hout : truthy out_file = true) :
    (dump_fc src false out_file omit_oid skip_re).2 = .error .osError ∧
    (dump_fc src false out_file omit_oid skip_re).1.cursorOpened = false ∧
    (dump_fc src false out_file omit_oid skip_re).1.rowsRead = 0 ∧
    (dump_fc src false out_file omit_oid skip_re).1.written = [] := by
  simp [dump_fc, hex, hout, runFinally, initState]

/-- C5 witness: the theorem applied to a concrete source and an unwritable
destination. -/
theorem dump_fc_destination_error_fail_fast_witness :
    (dump_fc srcB false (some "out.csv") true none).2 = .error .osError ∧
    (dump_fc srcB false (some "out.csv") true none).1.cursorOpened = false :=
  ⟨(dump_fc_destination_error_fail_fast srcB (some "out.csv") true none rfl rfl).1,
    (dump_fc_destination_error_fail_fast srcB (some "out.csv") true none rfl rfl).2.1⟩

/-- C6: in every `dump_fc` run that reaches the destination (and in every
successful `write_to_csv` run), the header row is written first, and every
written row — header and data rows alike — has exactly as many fields as the
header, provided the cursor honours the arcpy contract that each yielded row
is aligned positionally with the requested field list. -/
theorem export_header_row_arity (src : FcSource) (out_file : Option String)
    (omit_oid : Bool) (skip_re : Option Pattern) (tv : TableView)
    (hex : src.fcExists = true) (hout : truthy out_file = true)
    (hrows : ∀ r ∈ src.rows, r.length = (resolved_field_list src.fields omit_oid skip_re).length)
    (htv : ∀ r ∈ tv.rows, r.length = tv.cursor_fields.length) :
    ((dump_fc src true out_file omit_oid skip_re).1.written.head? =
        some ((resolved_field_list src.fields omit_oid skip_re).map Value.vstr) ∧
      ∀ w ∈ (dump_fc src true out_file omit_oid skip_re).1.written,
        w.length = (resolved_field_list src.fields omit_oid skip_re).length) ∧
    ((write_to_csv tv).2.head? = some (tv.cursor_fields.map Value.vstr) ∧
      ∀ w ∈ (write_to_csv tv).2, w.length = tv.cursor_fields.length) := by
  constructor
  · have hw : (dump_fc src true out_file omit_oid skip_re).1.written =
        (resolved_field_list src.fields omit_oid skip_re).map Value.vstr ::
          (if src.cursor_open_ok then
            src.rows.map (fun r => r.map prepare_for_csv) else []) := by
      cases hco : src.cursor_open_ok <;> cases hcr : src.cursor_raises <;>
        simp [dump_fc, hex, hout, hco, hcr, runFinally, initState]
    rw [hw]
    refine ⟨rfl, ?_⟩
    intro w hwmem
    rcases List.mem_cons.mp hwmem with h | h
    · subst h
      simp
    · by_cases hco : src.cursor_open_ok = true
      · rw [if_pos hco] at h
        rcases List.mem_map.mp h with ⟨r, hr, hrw⟩
        subst hrw
        simp [hrows r hr]
      · rw [if_neg hco] at h
        cases h
  · constructor
    · simp [write_to_csv, wtc_loop_eq]
    · intro w hw
      simp only [write_to_csv, wtc_loop_eq, List.mem_cons] at hw
      rcases hw with h | h
      · simp [h]
      · exact htv w h

/-- C6 witness: the theorem applied to the Scenario-1 feature class (OID,
string and geometry fields, resolved list `[NAME, SHAPE@WKB]`) with one
well-aligned row, and to a concrete two-column table view with one row. -/
theorem export_header_row_arity_witness :
    ((dump_fc srcC true (some "out.csv") true none).1.written.head? =
      some ((resolved_field_list srcC.fields true none).map Value.vstr)) ∧
    ∀ w ∈ (write_to_csv tvA).2, w.length = tvA.cursor_fields.length :=
  ⟨(export_header_row_arity srcC (some "out.csv") true none tvA rfl rfl
      (by decide) (by decide)).1.1,
    (export_header_row_arity srcC (some "out.csv") true none tvA rfl rfl
      (by decide) (by decide)).2.2⟩

/-- C7: the value normalizer maps every `bytearray` blob to its base64 text
encoding, maps every `datetime.datetime` to its calendar date with the
time-of-day dropped, and returns every value of any other runtime type
unchanged. -/
theorem prepare_for_csv_normalizes :
    (∀ b, prepare_for_csv (.vbytearray b) = .vstr (b64encode b)) ∧
    (∀ d t, prepare_for_csv (.vdatetime d t) = .vdate d) ∧
    (∀ v : Value, v.isBytearray = false → v.isDatetime = false →
      prepare_for_csv v = v) := by
  refine ⟨fun b => rfl, fun d t => rfl, fun v h1 h2 => ?_⟩
  cases v <;> simp_all [Value.isBytearray, Value.isDatetime, prepare_for_csv]

/-- C7 witness: the pass-through clause of the theorem applied to a string
value. -/
theorem prepare_for_csv_normalizes_witness :
    prepare_for_csv (.vstr "x") = .vstr "x" :=
  prepare_for_csv_normalizes.2.2 (.vstr "x") rfl rfl

/-- C8: the value normalizer is idempotent — a base64 string produced from a
blob is a plain `str` and passes through, a truncated date is a plain
`datetime.date` (not a `datetime.datetime`) and passes through, and every
pass-through value passes through again. -/
theorem prepare_for_csv_idempotent (v : Value) :
    prepare_for_csv (prepare_for_csv v) = prepare_for_csv v := by
  cases v <;> rfl

/-- C9: `_prepare_for_csv` base64-encodes only exact `bytearray` instances:
a binary value presented as `bytes` is not an instance of `bytearray`, so it
is returned unchanged (in particular it is not the base64 string of its
contents) and reaches the CSV writer raw. -/
theorem prepare_for_csv_bytes_passthrough (b : List Nat) :
    prepare_for_csv (.vbytes b) = .vbytes b ∧
    prepare_for_csv (.vbytes b) ≠ .vstr (b64encode b) :=
  ⟨rfl, fun h => Value.noConfusion h⟩

/-- C10: calling `dump_fc` on an existing source with a falsy `out_file`
(`None` or `""`) opens no destination file, reads no source row, and raises
`UnboundLocalError` (a `NameError`) for the never-bound `csv_writer` when
the header write is attempted; the `finally` clause closes nothing. -/
theorem dump_fc_falsy_out_file_name_error (src : FcSource) (dest_writable : Bool)
    (out_file : Option String) (omit_oid : Bool) (skip_re : Option Pattern)
    (hex : src.fcExists = true) (hout : truthy out_file = false) :
    (dump_fc src dest_writable out_file omit_oid skip_re).2 =
      .error (.nameError "csv_writer") ∧
    (dump_fc src dest_writable out_file omit_oid skip_re).1.opened = false ∧
    (dump_fc src dest_writable out_file omit_oid skip_re).1.written = [] ∧
    (dump_fc src dest_writable out_file omit_oid skip_re).1.rowsRead = 0 ∧
    (dump_fc src dest_writable out_file omit_oid skip_re).1.cursorOpened = false ∧
    (dump_fc src dest_writable out_file omit_oid skip_re).1.closes = 0 := by
  simp [dump_fc, hex, hout, runFinally, initState]

/-- C10 witness: the theorem applied to a concrete existing source and
`out_file = None`. -/
theorem dump_fc_falsy_out_file_name_error_witness :
    (dump_fc srcD true none true none).2 = .error (.nameError "csv_writer") ∧
    (dump_fc srcD true none true none).1.opened = false :=
  ⟨(dump_fc_falsy_out_file_name_error srcD true none true none rfl rfl).1,
    (dump_fc_falsy_out_file_name_error srcD true none true none rfl rfl).2.1⟩

end ArcGisCsv
